import Mathlib

/-!
Verification of the ai-meme-creator data-access and authorization layer.

The source (`src/actions/index.ts`) defines eight Astro action handlers over
three tables (`db/tables.ts`): MemeTemplates, MemeIdeas, MemeCaptions.  We
embed the store as lists of records, each handler as a function from an
optional caller identity, a store and a (zod-validated) input to a result
paired with the resulting store.  `crypto.randomUUID()` and `new Date()` are
passed in as explicit `genId` / `now` parameters.

Two semantic points of the host languages are modelled faithfully:
* SQL three-valued logic: drizzle's `eq(column, v)` compiles to `column = v`;
  a comparison in which either side is NULL is never true, so
  `eq(MemeTemplates.userId, null)` matches no row (the `isNull` predicate
  would be needed to match NULL rows).  See `sqlEqOpt`.
* JavaScript truthiness on strings: `if (x)` and `x && …` treat both
  `null`/`undefined` and the empty string as false.  See `strTruthy`.

Astro validates the zod input schema before invoking a handler; a failing
parse produces an ActionError with code BAD_REQUEST and the handler never
runs.  The `valid…Input` functions model the zod schemas and each embedded
handler checks them first.
-/

namespace MemeCreator

/-- A caller identity, as found on `context.locals.user`. -/
structure User where
  id : String
deriving Repr, DecidableEq

/-- Row of the MemeTemplates table (`db/tables.ts`).  `userId` is an optional
text column: NULL (`none`) marks a global/system template.  Dates are
abstracted to `Nat`. -/
structure Template where
  id : String
  userId : Option String
  name : String
  description : Option String
  imageUrl : Option String
  layoutType : Option String
  isSystem : Bool
  createdAt : Nat
  updatedAt : Nat
deriving Repr, DecidableEq

/-- Row of the MemeIdeas table (`db/tables.ts`). -/
structure Idea where
  id : String
  userId : String
  templateId : Option String
  context : Option String
  topic : Option String
  createdAt : Nat
deriving Repr, DecidableEq

/-- Row of the MemeCaptions table (`db/tables.ts`). -/
structure Caption where
  id : String
  memeIdeaId : String
  variantLabel : Option String
  topText : Option String
  bottomText : Option String
  extraText : Option String
  isFavorite : Bool
  isUsed : Bool
  createdAt : Nat
deriving Repr, DecidableEq

/-- The relational store: the three tables as lists of rows. -/
structure Store where
  templates : List Template
  ideas : List Idea
  captions : List Caption
deriving Repr, DecidableEq

/-- ActionError codes used by the source (plus BAD_REQUEST, the code Astro
attaches to a failing zod input parse). -/
inductive ErrorCode where
  | UNAUTHORIZED
  | NOT_FOUND
  | FORBIDDEN
  | BAD_REQUEST
deriving Repr, DecidableEq

/-- The `ActionError` payload: a machine-readable code and a message. -/
structure ActionError where
  code : ErrorCode
  message : String
deriving Repr, DecidableEq

/-- SQL equality `column = v` on a nullable text column, under SQL
three-valued logic: if either side is NULL the comparison is not true and
the row does not match.  In particular `sqlEqOpt c none = false` for every
`c` — this is what drizzle's `eq(MemeTemplates.userId, null)` evaluates to. -/
def sqlEqOpt (col : Option String) (v : Option String) : Bool :=
  match col, v with
  | some a, some b => a == b
  | _, _ => false

/-- JavaScript truthiness of a nullable string: `null`/`undefined` and the
empty string are falsy, every other string is truthy. -/
def strTruthy (o : Option String) : Bool :=
  match o with
  | none => false
  | some s => !(s == "")

/-- The error thrown by `requireUser`. -/
def unauthErr : ActionError :=
  ⟨.UNAUTHORIZED, "You must be signed in to perform this action."⟩

/-- The error Astro produces when the zod input schema rejects the request;
its code is BAD_REQUEST (the spec's InvalidInput kind). -/
def inputErr : ActionError :=
  ⟨.BAD_REQUEST, "Failed to validate input."⟩

/-- `requireUser` (actions/index.ts:13-25): returns the identity from the
request context, or throws UNAUTHORIZED when none is attached. -/
def requireUser (ctx : Option User) : Except ActionError User :=
  match ctx with
  | none => .error unauthErr
  | some user => .ok user

/-- `ensureTemplateAccessible` (actions/index.ts:27-48): select the template
by id; NOT_FOUND if no row; FORBIDDEN when `template.userId &&
template.userId !== userId` (JS truthiness: a NULL or empty-string owner is
falsy, so such templates are accessible to everyone); otherwise return it. -/
def ensureTemplateAccessible (s : Store) (templateId : String) (userId : String) :
    Except ActionError Template :=
  match (s.templates.filter (fun t => t.id == templateId)).head? with
  | none => .error ⟨.NOT_FOUND, "Template not found."⟩
  | some template =>
    if strTruthy template.userId && template.userId != some userId then
      .error ⟨.FORBIDDEN, "You do not have access to this template."⟩
    else
      .ok template

/-- `getOwnedIdea` (actions/index.ts:50-64): select the idea matching both
the id and the caller's userId in one conjunctive query; a missing idea and
an idea owned by someone else both fall into the same NOT_FOUND branch. -/
def getOwnedIdea (s : Store) (ideaId : String) (userId : String) :
    Except ActionError Idea :=
  match (s.ideas.filter (fun i => i.id == ideaId && i.userId == userId)).head? with
  | none => .error ⟨.NOT_FOUND, "Meme idea not found."⟩
  | some idea => .ok idea

/-- Input of createTemplate (zod: name `min(1)`, rest optional strings). -/
structure CreateTemplateInput where
  name : String
  description : Option String
  imageUrl : Option String
  layoutType : Option String
deriving Repr, DecidableEq

/-- zod schema of createTemplate: `name` must have length ≥ 1. -/
def validCreateTemplateInput (i : CreateTemplateInput) : Bool :=
  i.name.length != 0

/-- Input of createMemeIdea (all fields optional strings). -/
structure CreateIdeaInput where
  templateId : Option String
  context : Option String
  topic : Option String
deriving Repr, DecidableEq

/-- Input of createMemeCaption (zod: memeIdeaId `min(1)`). -/
structure CreateCaptionInput where
  memeIdeaId : String
  variantLabel : Option String
  topText : Option String
  bottomText : Option String
  extraText : Option String
  isFavorite : Option Bool
  isUsed : Option Bool
deriving Repr, DecidableEq

/-- zod schema of createMemeCaption. -/
def validCreateCaptionInput (i : CreateCaptionInput) : Bool :=
  i.memeIdeaId.length != 0

/-- Input of updateMemeCaption; `none` models a field absent (undefined). -/
structure UpdateCaptionInput where
  id : String
  memeIdeaId : String
  variantLabel : Option String
  topText : Option String
  bottomText : Option String
  extraText : Option String
  isFavorite : Option Bool
  isUsed : Option Bool
deriving Repr, DecidableEq

/-- zod schema of updateMemeCaption: both ids `min(1)` plus the `.refine`
requiring at least one of the six updatable fields to be present
(actions/index.ts:199-208). -/
def validUpdateCaptionInput (i : UpdateCaptionInput) : Bool :=
  i.id.length != 0 && i.memeIdeaId.length != 0 &&
    (i.variantLabel.isSome || i.topText.isSome || i.bottomText.isSome ||
     i.extraText.isSome || i.isFavorite.isSome || i.isUsed.isSome)

/-- Input of deleteMemeCaption (zod: both ids `min(1)`). -/
structure DeleteCaptionInput where
  id : String
  memeIdeaId : String
deriving Repr, DecidableEq

/-- zod schema of deleteMemeCaption. -/
def validDeleteCaptionInput (i : DeleteCaptionInput) : Bool :=
  i.id.length != 0 && i.memeIdeaId.length != 0

/-- Input of listMemeCaptions; the two flags carry their zod defaults
(`default(false)`), so an absent flag appears here as `false`. -/
structure ListCaptionsInput where
  memeIdeaId : String
  favoritesOnly : Bool
  usedOnly : Bool
deriving Repr, DecidableEq

/-- zod schema of listMemeCaptions. -/
def validListCaptionsInput (i : ListCaptionsInput) : Bool :=
  i.memeIdeaId.length != 0

/-- `createTemplate` handler (actions/index.ts:67-95): insert a template
owned by the caller with `isSystem = false` and both timestamps `now`. -/
def createTemplate (ctx : Option User) (s : Store) (input : CreateTemplateInput)
    (genId : String) (now : Nat) : (Except ActionError Template) × Store :=
  if !(validCreateTemplateInput input) then (.error inputErr, s)
  else
    match requireUser ctx with
    | .error e => (.error e, s)
    | .ok user =>
      let template : Template :=
        { id := genId, userId := some user.id, name := input.name,
          description := input.description, imageUrl := input.imageUrl,
          layoutType := input.layoutType, isSystem := false,
          createdAt := now, updatedAt := now }
      (.ok template, { s with templates := s.templates ++ [template] })

/-- `listTemplates` handler (actions/index.ts:97-109): select templates where
`userId = user.id OR userId = NULL`.  Under SQL three-valued logic the second
disjunct is never true (see `sqlEqOpt`), so only templates whose `userId`
equals the caller's id match. -/
def listTemplates (ctx : Option User) (s : Store) :
    (Except ActionError (List Template × Nat)) × Store :=
  match requireUser ctx with
  | .error e => (.error e, s)
  | .ok user =>
    let templates := s.templates.filter
      (fun t => sqlEqOpt t.userId (some user.id) || sqlEqOpt t.userId none)
    (.ok (templates, templates.length), s)

/-- `createMemeIdea` handler (actions/index.ts:111-138): when
`input.templateId` is truthy (present and nonempty) run
`ensureTemplateAccessible` first, propagating its error; then insert the
idea owned by the caller. -/
def createMemeIdea (ctx : Option User) (s : Store) (input : CreateIdeaInput)
    (genId : String) (now : Nat) : (Except ActionError Idea) × Store :=
  match requireUser ctx with
  | .error e => (.error e, s)
  | .ok user =>
    match
      (if strTruthy input.templateId then
        (ensureTemplateAccessible s (input.templateId.getD "") user.id).map
          (fun _ => ())
      else .ok ()) with
    | .error e => (.error e, s)
    | .ok _ =>
      let idea : Idea :=
        { id := genId, userId := user.id, templateId := input.templateId,
          context := input.context, topic := input.topic, createdAt := now }
      (.ok idea, { s with ideas := s.ideas ++ [idea] })

/-- `listMemeIdeas` handler (actions/index.ts:140-152): select ideas where
`userId = user.id`. -/
def listMemeIdeas (ctx : Option User) (s : Store) :
    (Except ActionError (List Idea × Nat)) × Store :=
  match requireUser ctx with
  | .error e => (.error e, s)
  | .ok user =>
    let ideas := s.ideas.filter (fun i => i.userId == user.id)
    (.ok (ideas, ideas.length), s)

/-- `createMemeCaption` handler (actions/index.ts:154-185): resolve the
parent idea as owned, then insert the caption; absent flags default to
`false` (the `?? false` in the source). -/
def createMemeCaption (ctx : Option User) (s : Store) (input : CreateCaptionInput)
    (genId : String) (now : Nat) : (Except ActionError Caption) × Store :=
  if !(validCreateCaptionInput input) then (.error inputErr, s)
  else
    match requireUser ctx with
    | .error e => (.error e, s)
    | .ok user =>
      match getOwnedIdea s input.memeIdeaId user.id with
      | .error e => (.error e, s)
      | .ok _ =>
        let caption : Caption :=
          { id := genId, memeIdeaId := input.memeIdeaId,
            variantLabel := input.variantLabel, topText := input.topText,
            bottomText := input.bottomText, extraText := input.extraText,
            isFavorite := input.isFavorite.getD false,
            isUsed := input.isUsed.getD false, createdAt := now }
        (.ok caption, { s with captions := s.captions ++ [caption] })

/-- The `.set({...spreads})` of updateMemeCaption (actions/index.ts:229-236):
each field present in the input overwrites the stored value, each absent
field is left unchanged. -/
def applyCaptionPatch (c : Caption) (input : UpdateCaptionInput) : Caption :=
  { c with
    variantLabel := match input.variantLabel with
      | some v => some v
      | none => c.variantLabel
    topText := match input.topText with
      | some v => some v
      | none => c.topText
    bottomText := match input.bottomText with
      | some v => some v
      | none => c.bottomText
    extraText := match input.extraText with
      | some v => some v
      | none => c.extraText
    isFavorite := input.isFavorite.getD c.isFavorite
    isUsed := input.isUsed.getD c.isUsed }

/-- `updateMemeCaption` handler (actions/index.ts:187-242): after validation,
auth and owned-idea resolution, require a caption matching both `id` and
`memeIdeaId` (NOT_FOUND otherwise), then run the update whose WHERE clause
matches `id` alone; `.returning()` yields the updated rows and the handler
returns the first. -/
def updateMemeCaption (ctx : Option User) (s : Store) (input : UpdateCaptionInput) :
    (Except ActionError (Option Caption)) × Store :=
  if !(validUpdateCaptionInput input) then (.error inputErr, s)
  else
    match requireUser ctx with
    | .error e => (.error e, s)
    | .ok user =>
      match getOwnedIdea s input.memeIdeaId user.id with
      | .error e => (.error e, s)
      | .ok _ =>
        match (s.captions.filter
            (fun c => c.id == input.id && c.memeIdeaId == input.memeIdeaId)).head? with
        | none => (.error ⟨.NOT_FOUND, "Meme caption not found."⟩, s)
        | some _ =>
          let newCaptions := s.captions.map
            (fun c => if c.id == input.id then applyCaptionPatch c input else c)
          let returned := (newCaptions.filter (fun c => c.id == input.id)).head?
          (.ok returned, { s with captions := newCaptions })

/-- `deleteMemeCaption` handler (actions/index.ts:244-268): after auth and
owned-idea resolution, delete the captions matching both ids; NOT_FOUND when
`rowsAffected` is zero. -/
def deleteMemeCaption (ctx : Option User) (s : Store) (input : DeleteCaptionInput) :
    (Except ActionError Unit) × Store :=
  if !(validDeleteCaptionInput input) then (.error inputErr, s)
  else
    match requireUser ctx with
    | .error e => (.error e, s)
    | .ok user =>
      match getOwnedIdea s input.memeIdeaId user.id with
      | .error e => (.error e, s)
      | .ok _ =>
        let affected := (s.captions.filter
          (fun c => c.id == input.id && c.memeIdeaId == input.memeIdeaId)).length
        let kept := s.captions.filter
          (fun c => !(c.id == input.id && c.memeIdeaId == input.memeIdeaId))
        if affected == 0 then
          (.error ⟨.NOT_FOUND, "Meme caption not found."⟩, { s with captions := kept })
        else
          (.ok (), { s with captions := kept })

/-- The conjunctive filter list of listMemeCaptions (actions/index.ts:280-286):
always the idea match, plus `isFavorite = true` when favoritesOnly and
`isUsed = true` when usedOnly. -/
def captionFilter (input : ListCaptionsInput) (c : Caption) : Bool :=
  c.memeIdeaId == input.memeIdeaId
    && (!input.favoritesOnly || c.isFavorite)
    && (!input.usedOnly || c.isUsed)

/-- `listMemeCaptions` handler (actions/index.ts:270-292): after auth and
owned-idea resolution, select the captions satisfying the conjunction of the
active filters. -/
def listMemeCaptions (ctx : Option User) (s : Store) (input : ListCaptionsInput) :
    (Except ActionError (List Caption × Nat)) × Store :=
  if !(validListCaptionsInput input) then (.error inputErr, s)
  else
    match requireUser ctx with
    | .error e => (.error e, s)
    | .ok user =>
      match getOwnedIdea s input.memeIdeaId user.id with
      | .error e => (.error e, s)
      | .ok _ =>
        let captions := s.captions.filter (captionFilter input)
        (.ok (captions, captions.length), s)

deriving instance DecidableEq for Except

/-- The empty store: no templates, no ideas, no captions. -/
def emptyStore : Store := ⟨[], [], []⟩

/-- An ownerless (global) template, as the schema comment describes:
"userId optional: null/system = global templates". -/
def c1Store : Store := ⟨[⟨"t1", none, "Drake", none, none, none, true, 0, 0⟩], [], []⟩

/-- A template whose owner field holds the empty string: present, but falsy
under JS truthiness. -/
def c4Template : Template := ⟨"t1", some "", "Blank", none, none, none, false, 0, 0⟩

/-- Store holding only `c4Template`. -/
def c4Store : Store := ⟨[c4Template], [], []⟩

/-- Store holding one template owned by the empty-string user, for the
createMemeIdea accessibility counterexample. -/
def c2Store : Store := ⟨[⟨"t2", some "", "Blank", none, none, none, false, 0, 0⟩], [], []⟩

/-- An idea owned by user "u2". -/
def c3Idea : Idea := ⟨"i1", "u2", none, none, none, 0⟩

/-- Store holding only `c3Idea`. -/
def c3Store : Store := ⟨[], [c3Idea], []⟩

/-- The caller used by the concrete witnesses. -/
def wUser : User := ⟨"u1"⟩

/-- An idea owned by `wUser`. -/
def wIdea : Idea := ⟨"i1", "u1", none, none, none, 0⟩

/-- A caption of `wIdea` with text "x" and both flags false. -/
def wCaption : Caption := ⟨"c1", "i1", some "A", some "x", none, none, false, false, 0⟩

/-- Store holding `wIdea` and `wCaption`. -/
def wStore : Store := ⟨[], [wIdea], [wCaption]⟩

/-- An update request touching only `isFavorite`. -/
def w5Input : UpdateCaptionInput := ⟨"c1", "i1", none, none, none, none, some true, none⟩

/-- A second idea of the same user. -/
def w10Idea : Idea := ⟨"i2", "u1", none, none, none, 0⟩

/-- A caption belonging to the second idea. -/
def w10Caption : Caption := ⟨"c2", "i2", none, none, none, none, true, true, 0⟩

/-- Store holding two ideas with one caption each. -/
def w10Store : Store := ⟨[], [wIdea, w10Idea], [wCaption, w10Caption]⟩

/-- An update request with every updatable field absent. -/
def c9Input : UpdateCaptionInput := ⟨"c1", "i1", none, none, none, none, none, none⟩

/-- `Except.map` on an error is the same error. -/
theorem exceptMap_error {ε α β : Type} (f : α → β) (e : ε) :
    (Except.error e : Except ε α).map f = .error e := rfl

/-- `Except.map` on a success applies the function. -/
theorem exceptMap_ok {ε α β : Type} (f : α → β) (a : α) :
    (Except.ok a : Except ε α).map f = .ok (f a) := rfl

/-- If no element satisfies the predicate, the filtered list has no head. -/
theorem filter_head?_eq_none {α : Type} {p : α → Bool} {l : List α}
    (h : ∀ a ∈ l, p a = false) : (l.filter p).head? = none := by
  rw [List.head?_eq_none_iff, List.filter_eq_nil_iff]
  intro a ha
  simp [h a ha]

/-- The head of a filtered list is a member satisfying the predicate. -/
theorem mem_of_filter_head? {α : Type} {p : α → Bool} {l : List α} {a : α}
    (h : (l.filter p).head? = some a) : a ∈ l ∧ p a = true := by
  have hmem : a ∈ l.filter p := by
    rcases List.head?_eq_some_iff.mp h with ⟨ys, hys⟩
    simp [hys]
  simpa using List.mem_filter.mp hmem

/-- If some element satisfies the predicate, the filtered list has a head. -/
theorem filter_head?_exists {α : Type} (p : α → Bool) {l : List α} {a : α}
    (ha : a ∈ l) (hp : p a = true) : ∃ b, (l.filter p).head? = some b := by
  cases hfl : l.filter p with
  | nil =>
    have := List.filter_eq_nil_iff.mp hfl a ha
    simp [hp] at this
  | cons b bs => exact ⟨b, by simp [hfl]⟩

/-- ensureTemplateAccessible signals NOT_FOUND when no template matches the
id, whoever the caller is. -/
theorem ensureTemplate_not_found {s : Store} {templateId : String} (callerId : String)
    (h : ∀ t ∈ s.templates, t.id ≠ templateId) :
    ensureTemplateAccessible s templateId callerId
      = .error ⟨.NOT_FOUND, "Template not found."⟩ := by
  have hnone : (s.templates.filter (fun t => t.id == templateId)).head? = none :=
    filter_head?_eq_none (fun t ht => by simp [h t ht])
  simp [ensureTemplateAccessible, hnone]

/-- ensureTemplateAccessible signals FORBIDDEN when the first matching
template has a nonempty owner different from the caller. -/
theorem ensureTemplate_forbidden {s : Store} {templateId callerId : String}
    {t : Template} {o : String}
    (ht : (s.templates.filter (fun t => t.id == templateId)).head? = some t)
    (ho : t.userId = some o) (hone : o ≠ "") (honeq : o ≠ callerId) :
    ensureTemplateAccessible s templateId callerId
      = .error ⟨.FORBIDDEN, "You do not have access to this template."⟩ := by
  simp [ensureTemplateAccessible, ht, strTruthy, ho, hone, honeq]

/-- ensureTemplateAccessible returns the first matching template when its
owner field is absent, empty, or equal to the caller. -/
theorem ensureTemplate_ok {s : Store} {templateId callerId : String} {t : Template}
    (ht : (s.templates.filter (fun t => t.id == templateId)).head? = some t)
    (hcase : t.userId = none ∨ t.userId = some "" ∨ t.userId = some callerId) :
    ensureTemplateAccessible s templateId callerId = .ok t := by
  rcases hcase with h | h | h <;> simp [ensureTemplateAccessible, ht, strTruthy, h]

/-- C1: the spec states that every ownerless template is included in every
authenticated caller's listTemplates result.  The handler filters with
`userId = user.id OR userId = NULL`; under SQL three-valued logic the
comparison `userId = NULL` is never true, so the ownerless template is
excluded: with a store holding exactly one ownerless template, caller "u1"
receives an empty listing.  The schema comment ("null/system = global
templates") and the disjunct itself show the listing was meant to include
ownerless rows (an IS NULL predicate was needed), so this is a code bug. -/
theorem C1_listTemplates_drops_ownerless :
    c1Store.templates = [⟨"t1", none, "Drake", none, none, none, true, 0, 0⟩]
    ∧ (listTemplates (some ⟨"u1"⟩) c1Store).1 = .ok ([], 0) := by decide

/-- C3: getOwnedIdea signals the same NOT_FOUND error (same code, same
message) both when no idea with the given id exists and when every idea with
that id is owned by a different caller, and it returns an idea exactly when
one exists with the given id owned by the caller. -/
theorem C3_getOwnedIdea_spec (s : Store) (ideaId callerId : String) :
    ((∀ i ∈ s.ideas, i.id ≠ ideaId) →
      getOwnedIdea s ideaId callerId = .error ⟨.NOT_FOUND, "Meme idea not found."⟩)
    ∧ ((∀ i ∈ s.ideas, i.id = ideaId → i.userId ≠ callerId) →
      getOwnedIdea s ideaId callerId = .error ⟨.NOT_FOUND, "Meme idea not found."⟩)
    ∧ (∀ i, getOwnedIdea s ideaId callerId = .ok i →
      i ∈ s.ideas ∧ i.id = ideaId ∧ i.userId = callerId)
    ∧ ((∃ i ∈ s.ideas, i.id = ideaId ∧ i.userId = callerId) →
      ∃ i, getOwnedIdea s ideaId callerId = .ok i) := by
  refine ⟨?_, ?_, ?_, ?_⟩
  · intro h
    have hnone :
        (s.ideas.filter (fun i => i.id == ideaId && i.userId == callerId)).head? = none :=
      filter_head?_eq_none (fun i hi => by simp [h i hi])
    simp [getOwnedIdea, hnone]
  · intro h
    have hnone :
        (s.ideas.filter (fun i => i.id == ideaId && i.userId == callerId)).head? = none := by
      apply filter_head?_eq_none
      intro i hi
      by_cases hid : i.id = ideaId
      · simp [hid, h i hi hid]
      · simp [hid]
    simp [getOwnedIdea, hnone]
  · intro i hok
    unfold getOwnedIdea at hok
    cases hh : (s.ideas.filter (fun i => i.id == ideaId && i.userId == callerId)).head? with
    | none => rw [hh] at hok; simp at hok
    | some j =>
      rw [hh] at hok
      simp only [Except.ok.injEq] at hok
      subst hok
      have := mem_of_filter_head? hh
      simpa using this
  · rintro ⟨i, hi, hid, huid⟩
    obtain ⟨b, hb⟩ := filter_head?_exists
      (fun i => i.id == ideaId && i.userId == callerId) hi (by simp [hid, huid])
    exact ⟨b, by simp [getOwnedIdea, hb]⟩

/-- C3 witness: an idea with id "i1" exists but is owned by "u2", so caller
"u1" gets the NOT_FOUND error, by the ownership branch of the theorem. -/
theorem C3_witness :
    getOwnedIdea c3Store "i1" "u1" = .error ⟨.NOT_FOUND, "Meme idea not found."⟩ :=
  (C3_getOwnedIdea_spec c3Store "i1" "u1").2.1 (by decide)

/-- C4 counterexample: `c4Template` has an owner field (`some ""`) different
from caller "u1", so the claim requires FORBIDDEN, but the code's JS
truthiness check (`template.userId && …`) treats the empty-string owner as
falsy and returns the template. -/
theorem C4_counterexample :
    c4Template.userId = some "" ∧ ("" : String) ≠ "u1"
    ∧ ensureTemplateAccessible c4Store "t1" "u1" = .ok c4Template := by decide

/-- C4 (amended): ensureTemplateAccessible signals NOT_FOUND when no
template with the id exists (independently of the caller, so existence is
decided before ownership); when the first matching template has a nonempty
owner different from the caller it signals FORBIDDEN; when its owner field
is absent, empty, or equal to the caller it returns the template. -/
theorem C4_ensureTemplateAccessible_spec (s : Store) (templateId callerId : String) :
    ((∀ t ∈ s.templates, t.id ≠ templateId) →
      ensureTemplateAccessible s templateId callerId
        = .error ⟨.NOT_FOUND, "Template not found."⟩)
    ∧ (∀ t, (s.templates.filter (fun t => t.id == templateId)).head? = some t →
        ((∀ o, t.userId = some o → o ≠ "" → o ≠ callerId →
          ensureTemplateAccessible s templateId callerId
            = .error ⟨.FORBIDDEN, "You do not have access to this template."⟩)
        ∧ ((t.userId = none ∨ t.userId = some "" ∨ t.userId = some callerId) →
          ensureTemplateAccessible s templateId callerId = .ok t))) := by
  exact ⟨fun h => ensureTemplate_not_found callerId h,
    fun t ht => ⟨fun o ho hne hneq => ensureTemplate_forbidden ht ho hne hneq,
      fun hcase => ensureTemplate_ok ht hcase⟩⟩

/-- C4 witness: on the empty store every lookup signals NOT_FOUND, by the
existence branch of the theorem. -/
theorem C4_witness :
    ensureTemplateAccessible emptyStore "t9" "u1"
      = .error ⟨.NOT_FOUND, "Template not found."⟩ :=
  (C4_ensureTemplateAccessible_spec emptyStore "t9" "u1").1 (by decide)

/-- C2 counterexample, two parts.  Part 1: with `templateId = some ""`
supplied and no template of id "" in the (empty) store, the claim requires
NOT_FOUND and no Idea row; the code's `if (input.templateId)` treats the
empty string as absent, skips the accessibility check, and writes the row.
Part 2: the store holds template "t2" whose owner field `some ""` differs
from caller "u1", so the claim requires FORBIDDEN; the code creates the
idea because the empty-string owner is falsy in the accessibility check. -/
theorem C2_counterexample :
    ((createMemeIdea (some ⟨"u1"⟩) emptyStore ⟨some "", none, none⟩ "i1" 0).1
        = .ok ⟨"i1", "u1", some "", none, none, 0⟩
      ∧ (createMemeIdea (some ⟨"u1"⟩) emptyStore ⟨some "", none, none⟩ "i1" 0).2.ideas
        = [⟨"i1", "u1", some "", none, none, 0⟩])
    ∧ (createMemeIdea (some ⟨"u1"⟩) c2Store ⟨some "t2", none, none⟩ "i2" 0).1
        = .ok ⟨"i2", "u1", some "t2", none, none, 0⟩ := by decide

/-- C2 (amended): for every createMemeIdea call supplying a nonempty
templateId, the accessibility check runs first: a nonexistent template
yields NOT_FOUND and an existing template with a nonempty owner different
from the caller yields FORBIDDEN, in both cases with the store unchanged (no
Idea row written); and every successful call passed the accessibility check
(so no idea is ever created referencing a nonempty inaccessible template),
appended exactly its idea to the store, and recorded the supplied
templateId.  (An absent or empty templateId skips the check.) -/
theorem C2_createMemeIdea_template_check (u : User) (s : Store)
    (input : CreateIdeaInput) (genId : String) (now : Nat) (tid : String)
    (htid : input.templateId = some tid) (hne : tid ≠ "") :
    ((∀ t ∈ s.templates, t.id ≠ tid) →
      createMemeIdea (some u) s input genId now
        = (.error ⟨.NOT_FOUND, "Template not found."⟩, s))
    ∧ (∀ t o, (s.templates.filter (fun t => t.id == tid)).head? = some t →
        t.userId = some o → o ≠ "" → o ≠ u.id →
        createMemeIdea (some u) s input genId now
          = (.error ⟨.FORBIDDEN, "You do not have access to this template."⟩, s))
    ∧ (∀ r s', createMemeIdea (some u) s input genId now = (.ok r, s') →
        ((∃ t, ensureTemplateAccessible s tid u.id = .ok t)
          ∧ s' = { s with ideas := s.ideas ++ [r] } ∧ r.templateId = some tid)) := by
  have htr : strTruthy (some tid) = true := by simp [strTruthy, hne]
  refine ⟨?_, ?_, ?_⟩
  · intro h
    have hacc := ensureTemplate_not_found u.id h
    simp [createMemeIdea, requireUser, htr, htid, hacc, exceptMap_error]
  · intro t o ht ho hone honeq
    have hacc := ensureTemplate_forbidden ht ho hone honeq
    simp [createMemeIdea, requireUser, htr, htid, hacc, exceptMap_error]
  · intro r s' h
    unfold createMemeIdea at h
    rw [htid] at h
    simp only [requireUser, htr, if_true, Option.getD_some] at h
    cases hacc : ensureTemplateAccessible s tid u.id with
    | error e =>
      rw [hacc, exceptMap_error] at h
      simp at h
    | ok t =>
      rw [hacc, exceptMap_ok] at h
      simp only [Prod.mk.injEq, Except.ok.injEq] at h
      obtain ⟨hr, hs⟩ := h
      subst hs
      exact ⟨⟨t, rfl⟩, by rw [← hr], by rw [← hr]⟩

/-- C2 witness: a nonempty templateId referencing no template yields
NOT_FOUND with the store unchanged, by the existence branch. -/
theorem C2_witness :
    createMemeIdea (some ⟨"u1"⟩) emptyStore ⟨some "t9", none, none⟩ "i1" 0
      = (.error ⟨.NOT_FOUND, "Template not found."⟩, emptyStore) :=
  (C2_createMemeIdea_template_check ⟨"u1"⟩ emptyStore ⟨some "t9", none, none⟩
    "i1" 0 "t9" rfl (by decide)).1 (by decide)

/-- Success inversion for updateMemeCaption: a successful update implies
some caption matching both the caption id and the idea id exists in the
store, only the captions table changes, and it changes by patching exactly
the captions whose id matches the input id. -/
theorem updateMemeCaption_ok {ctx : Option User} {s : Store} {input : UpdateCaptionInput}
    {out : Option Caption} {s' : Store}
    (h : updateMemeCaption ctx s input = (.ok out, s')) :
    (∃ e ∈ s.captions, e.id = input.id ∧ e.memeIdeaId = input.memeIdeaId)
    ∧ s'.templates = s.templates ∧ s'.ideas = s.ideas
    ∧ s'.captions = s.captions.map
        (fun c => if c.id == input.id then applyCaptionPatch c input else c) := by
  unfold updateMemeCaption at h
  cases hv : validUpdateCaptionInput input with
  | false => rw [hv] at h; simp at h
  | true =>
    rw [hv] at h
    simp only [Bool.not_true, Bool.false_eq_true, if_false] at h
    cases ctx with
    | none => simp [requireUser] at h
    | some u =>
      simp only [requireUser] at h
      cases hio : getOwnedIdea s input.memeIdeaId u.id with
      | error e => rw [hio] at h; simp at h
      | ok idea =>
        rw [hio] at h
        cases hh : (s.captions.filter
            (fun c => c.id == input.id && c.memeIdeaId == input.memeIdeaId)).head? with
        | none => rw [hh] at h; simp at h
        | some e =>
          rw [hh] at h
          simp only [Prod.mk.injEq, Except.ok.injEq] at h
          obtain ⟨hout, hs⟩ := h
          obtain ⟨he, hpe⟩ := mem_of_filter_head? hh
          simp only [Bool.and_eq_true, beq_iff_eq] at hpe
          exact ⟨⟨e, he, hpe.1, hpe.2⟩, by rw [← hs], by rw [← hs], by rw [← hs]⟩

/-- C5: a successful updateMemeCaption rewrites the captions table by
patching the matching caption, and the patch takes each of the six fields
from the input when present and keeps the stored value when absent (id,
parent idea and creation time are never touched). -/
theorem C5_update_preserves_absent_fields (ctx : Option User) (s : Store)
    (input : UpdateCaptionInput) (out : Option Caption) (s' : Store)
    (h : updateMemeCaption ctx s input = (.ok out, s')) :
    s'.captions = s.captions.map
      (fun c => if c.id == input.id then applyCaptionPatch c input else c)
    ∧ ∀ c : Caption,
        ((input.variantLabel = none → (applyCaptionPatch c input).variantLabel = c.variantLabel)
          ∧ ∀ v, input.variantLabel = some v → (applyCaptionPatch c input).variantLabel = some v)
        ∧ ((input.topText = none → (applyCaptionPatch c input).topText = c.topText)
          ∧ ∀ v, input.topText = some v → (applyCaptionPatch c input).topText = some v)
        ∧ ((input.bottomText = none → (applyCaptionPatch c input).bottomText = c.bottomText)
          ∧ ∀ v, input.bottomText = some v → (applyCaptionPatch c input).bottomText = some v)
        ∧ ((input.extraText = none → (applyCaptionPatch c input).extraText = c.extraText)
          ∧ ∀ v, input.extraText = some v → (applyCaptionPatch c input).extraText = some v)
        ∧ ((input.isFavorite = none → (applyCaptionPatch c input).isFavorite = c.isFavorite)
          ∧ ∀ b, input.isFavorite = some b → (applyCaptionPatch c input).isFavorite = b)
        ∧ ((input.isUsed = none → (applyCaptionPatch c input).isUsed = c.isUsed)
          ∧ ∀ b, input.isUsed = some b → (applyCaptionPatch c input).isUsed = b)
        ∧ (applyCaptionPatch c input).id = c.id
        ∧ (applyCaptionPatch c input).memeIdeaId = c.memeIdeaId
        ∧ (applyCaptionPatch c input).createdAt = c.createdAt := by
  refine ⟨(updateMemeCaption_ok h).2.2.2, ?_⟩
  intro c
  refine ⟨⟨?_, ?_⟩, ⟨?_, ?_⟩, ⟨?_, ?_⟩, ⟨?_, ?_⟩, ⟨?_, ?_⟩, ⟨?_, ?_⟩, ?_, ?_, ?_⟩ <;>
    first
      | (intro v hx; simp [applyCaptionPatch, hx])
      | (intro hx; simp [applyCaptionPatch, hx])
      | simp [applyCaptionPatch]

/-- C5 witness: updating only `isFavorite` on `wCaption` leaves `topText`
at its stored value "x" while setting the flag, and the store's captions
table is exactly the patched singleton. -/
theorem C5_witness :
    ((updateMemeCaption (some wUser) wStore w5Input).2).captions
      = [applyCaptionPatch wCaption w5Input]
    ∧ (applyCaptionPatch wCaption w5Input).topText = some "x"
    ∧ (applyCaptionPatch wCaption w5Input).isFavorite = true := by
  have hc := C5_update_preserves_absent_fields (some wUser) wStore w5Input
      (some (applyCaptionPatch wCaption w5Input))
      ((updateMemeCaption (some wUser) wStore w5Input).2) (by decide)
  refine ⟨?_, ?_, ?_⟩
  · rw [hc.1]; decide
  · have hp := ((hc.2 wCaption).2.1).1 rfl
    rw [hp]; decide
  · exact ((hc.2 wCaption).2.2.2.2.1).2 true rfl

/-- C6: an updateMemeCaption request in which all six updatable fields are
absent is rejected by the zod `.refine` during input validation, before the
handler (and thus any identity check or data access) runs: the result is the
BAD_REQUEST input error — the spec's InvalidInput — for every request
context and every store, and the store is returned unchanged. -/
theorem C6_update_all_absent_rejected (ctx : Option User) (s : Store)
    (input : UpdateCaptionInput)
    (h1 : input.variantLabel = none) (h2 : input.topText = none)
    (h3 : input.bottomText = none) (h4 : input.extraText = none)
    (h5 : input.isFavorite = none) (h6 : input.isUsed = none) :
    updateMemeCaption ctx s input = (.error inputErr, s) := by
  simp [updateMemeCaption, validUpdateCaptionInput, h1, h2, h3, h4, h5, h6]

/-- C6 witness: the concrete all-absent request is rejected with the
BAD_REQUEST input error even with no identity attached and an empty store. -/
theorem C6_witness :
    updateMemeCaption none emptyStore c9Input = (.error inputErr, emptyStore) :=
  C6_update_all_absent_rejected none emptyStore c9Input rfl rfl rfl rfl rfl rfl

/-- C10: although the UPDATE statement of updateMemeCaption matches on the
caption id alone, when caption ids are unique (they are the table's primary
key) every caption it mutates belongs to the idea named in the request: any
stored caption with the input's id carries the input's memeIdeaId, because
the preceding existence check found a caption matching both; captions of
other ideas are mapped to themselves. -/
theorem C10_update_confined_to_stated_idea (ctx : Option User) (s : Store)
    (input : UpdateCaptionInput) (out : Option Caption) (s' : Store)
    (huniq : ∀ c1 ∈ s.captions, ∀ c2 ∈ s.captions, c1.id = c2.id → c1 = c2)
    (h : updateMemeCaption ctx s input = (.ok out, s')) :
    s'.captions = s.captions.map
      (fun c => if c.id == input.id then applyCaptionPatch c input else c)
    ∧ (∀ c ∈ s.captions, c.id = input.id → c.memeIdeaId = input.memeIdeaId)
    ∧ (∀ c ∈ s.captions, c.memeIdeaId ≠ input.memeIdeaId →
        (if c.id == input.id then applyCaptionPatch c input else c) = c) := by
  obtain ⟨⟨e, he, heid, heidea⟩, _, _, hcap⟩ := updateMemeCaption_ok h
  have hkey : ∀ c ∈ s.captions, c.id = input.id → c.memeIdeaId = input.memeIdeaId := by
    intro c hc hcid
    have hce : c = e := huniq c hc e he (hcid.trans heid.symm)
    rw [hce, heidea]
  refine ⟨hcap, hkey, ?_⟩
  intro c hc hcmid
  cases hid : c.id == input.id with
  | true => exact absurd (hkey c hc (by simpa using hid)) hcmid
  | false => simp

/-- C10 witness: with two ideas "i1", "i2" each holding one caption, the
update aimed at caption "c1" of idea "i1" patches only that caption; the
caption of idea "i2" is untouched. -/
theorem C10_witness :
    ((updateMemeCaption (some wUser) w10Store w5Input).2).captions
      = [applyCaptionPatch wCaption w5Input, w10Caption]
    ∧ (if w10Caption.id == w5Input.id then applyCaptionPatch w10Caption w5Input
        else w10Caption) = w10Caption := by
  have hc := C10_update_confined_to_stated_idea (some wUser) w10Store w5Input
      (some (applyCaptionPatch wCaption w5Input))
      ((updateMemeCaption (some wUser) w10Store w5Input).2) (by decide) (by decide)
  refine ⟨?_, ?_⟩
  · rw [hc.1]; decide
  · exact hc.2.2 w10Caption (by decide) (by decide)

/-- C7: under a valid input and an owned parent idea, deleteMemeCaption
signals NOT_FOUND with the store unchanged whenever no stored caption
matches both the caption id and the idea id (so deleting an already-deleted
caption, or a caption/idea mismatch, is detected rather than silently
succeeding), succeeds removing exactly the matching captions whenever at
least one matches, and succeeds if and only if a matching caption existed. -/
theorem C7_delete_detects_missing (u : User) (s : Store) (input : DeleteCaptionInput)
    (hvalid : validDeleteCaptionInput input = true)
    (idea : Idea) (howned : getOwnedIdea s input.memeIdeaId u.id = .ok idea) :
    ((∀ c ∈ s.captions, ¬(c.id = input.id ∧ c.memeIdeaId = input.memeIdeaId)) →
      deleteMemeCaption (some u) s input
        = (.error ⟨.NOT_FOUND, "Meme caption not found."⟩, s))
    ∧ ((∃ c ∈ s.captions, c.id = input.id ∧ c.memeIdeaId = input.memeIdeaId) →
      deleteMemeCaption (some u) s input
        = (.ok (), { s with captions := s.captions.filter (fun c => !(c.id == input.id && c.memeIdeaId == input.memeIdeaId)) }))
    ∧ ((deleteMemeCaption (some u) s input).1 = .ok () ↔
      ∃ c ∈ s.captions, c.id = input.id ∧ c.memeIdeaId = input.memeIdeaId) := by
  have hno : (∀ c ∈ s.captions, ¬(c.id = input.id ∧ c.memeIdeaId = input.memeIdeaId)) →
      deleteMemeCaption (some u) s input
        = (.error ⟨.NOT_FOUND, "Meme caption not found."⟩, s) := by
    intro h
    have hfalse : ∀ c ∈ s.captions,
        (c.id == input.id && c.memeIdeaId == input.memeIdeaId) = false := by
      intro c hc
      by_contra hne
      rw [Bool.not_eq_false, Bool.and_eq_true, beq_iff_eq, beq_iff_eq] at hne
      exact h c hc hne
    have hfil : s.captions.filter
        (fun c => c.id == input.id && c.memeIdeaId == input.memeIdeaId) = [] :=
      List.filter_eq_nil_iff.mpr (fun c hc => by simp [hfalse c hc])
    have hkept : s.captions.filter
        (fun c => !(c.id == input.id) || !(c.memeIdeaId == input.memeIdeaId)) = s.captions :=
      List.filter_eq_self.mpr (fun c hc => by rw [← Bool.not_and, hfalse c hc]; rfl)
    simp [deleteMemeCaption, requireUser, hvalid, howned, hfil, hkept]
  have hyes : (∃ c ∈ s.captions, c.id = input.id ∧ c.memeIdeaId = input.memeIdeaId) →
      deleteMemeCaption (some u) s input
        = (.ok (), { s with captions := s.captions.filter (fun c => !(c.id == input.id && c.memeIdeaId == input.memeIdeaId)) }) := by
    rintro ⟨c, hc, hcid, hcmid⟩
    have hmem : c ∈ s.captions.filter
        (fun c => c.id == input.id && c.memeIdeaId == input.memeIdeaId) :=
      List.mem_filter.mpr ⟨hc, by simp [hcid, hcmid]⟩
    have hlen : ((s.captions.filter
        (fun c => c.id == input.id && c.memeIdeaId == input.memeIdeaId)).length == 0)
          = false := by
      rw [beq_eq_false_iff_ne, ne_eq, List.length_eq_zero]
      exact List.ne_nil_of_mem hmem
    simp [deleteMemeCaption, requireUser, hvalid, howned, hlen]
  refine ⟨hno, hyes, ?_⟩
  by_cases hex : ∃ c ∈ s.captions, c.id = input.id ∧ c.memeIdeaId = input.memeIdeaId
  · rw [hyes hex]
    simpa using hex
  · push_neg at hex
    rw [hno (fun c hc hand => hex c hc hand.1 hand.2)]
    simp
    push_neg
    exact hex

/-- C7 witness: deleting the nonexistent caption "zz" of the owned idea
"i1" signals NOT_FOUND with the store unchanged, by the no-match branch. -/
theorem C7_witness :
    deleteMemeCaption (some wUser) wStore ⟨"zz", "i1"⟩
      = (.error ⟨.NOT_FOUND, "Meme caption not found."⟩, wStore) :=
  (C7_delete_detects_missing wUser wStore ⟨"zz", "i1"⟩ (by decide) wIdea
    (by decide)).1 (by decide)

/-- C8: under a valid input and an owned parent idea, listMemeCaptions
returns exactly the captions passing the conjunction of the active filters,
and that conjunction requires both flags when both filters are set (AND
semantics), the single named flag when one is set, and only the idea match
when neither is set. -/
theorem C8_list_filters_conjunctive (u : User) (s : Store) (input : ListCaptionsInput)
    (hvalid : validListCaptionsInput input = true)
    (idea : Idea) (howned : getOwnedIdea s input.memeIdeaId u.id = .ok idea) :
    listMemeCaptions (some u) s input
      = (.ok (s.captions.filter (captionFilter input),
          (s.captions.filter (captionFilter input)).length), s)
    ∧ (input.favoritesOnly = true → input.usedOnly = true → ∀ c : Caption,
        (captionFilter input c = true ↔
          (c.memeIdeaId = input.memeIdeaId ∧ c.isFavorite = true ∧ c.isUsed = true)))
    ∧ (input.favoritesOnly = true → input.usedOnly = false → ∀ c : Caption,
        (captionFilter input c = true ↔
          (c.memeIdeaId = input.memeIdeaId ∧ c.isFavorite = true)))
    ∧ (input.favoritesOnly = false → input.usedOnly = true → ∀ c : Caption,
        (captionFilter input c = true ↔
          (c.memeIdeaId = input.memeIdeaId ∧ c.isUsed = true)))
    ∧ (input.favoritesOnly = false → input.usedOnly = false → ∀ c : Caption,
        (captionFilter input c = true ↔ c.memeIdeaId = input.memeIdeaId)) := by
  refine ⟨by simp [listMemeCaptions, requireUser, hvalid, howned], ?_, ?_, ?_, ?_⟩ <;>
    · intro hf hu c
      simp [captionFilter, hf, hu, and_assoc]

/-- C8 witness: with both filters set on the owned idea "i1", the handler
returns the conjunctively filtered captions, and the filter demands both
flags of `wCaption`. -/
theorem C8_witness :
    listMemeCaptions (some wUser) wStore ⟨"i1", true, true⟩
      = (.ok (wStore.captions.filter (captionFilter ⟨"i1", true, true⟩),
          (wStore.captions.filter (captionFilter ⟨"i1", true, true⟩)).length), wStore)
    ∧ (captionFilter ⟨"i1", true, true⟩ wCaption = true ↔
        (wCaption.memeIdeaId = "i1" ∧ wCaption.isFavorite = true ∧ wCaption.isUsed = true)) := by
  have hc := C8_list_filters_conjunctive wUser wStore ⟨"i1", true, true⟩ (by decide)
    wIdea (by decide)
  exact ⟨hc.1, hc.2.1 rfl rfl wCaption⟩

/-- C9 counterexample: the claim asserts that every operation with no caller
identity signals Unauthenticated.  But Astro validates the zod input schema
before the handler runs, so an updateMemeCaption request with no updatable
field and no identity yields the BAD_REQUEST input error, not the
UNAUTHORIZED error. -/
theorem C9_counterexample :
    updateMemeCaption none emptyStore c9Input = (.error inputErr, emptyStore)
    ∧ inputErr.code = ErrorCode.BAD_REQUEST
    ∧ ErrorCode.BAD_REQUEST ≠ ErrorCode.UNAUTHORIZED := by decide

/-- C9 (amended): for every exposed operation whose input passes schema
validation, a request with no caller identity yields the UNAUTHORIZED error
with the store unchanged; the same error for every store, showing the outcome
depends on no stored data.  (A request failing schema validation is instead
rejected as InvalidInput, also before any data access.) -/
theorem C9_unauthenticated_rejected (s : Store) (ti : CreateTemplateInput)
    (ii : CreateIdeaInput) (ci : CreateCaptionInput) (ui : UpdateCaptionInput)
    (di : DeleteCaptionInput) (li : ListCaptionsInput) (genId : String) (now : Nat)
    (h1 : validCreateTemplateInput ti = true)
    (h2 : validCreateCaptionInput ci = true)
    (h3 : validUpdateCaptionInput ui = true)
    (h4 : validDeleteCaptionInput di = true)
    (h5 : validListCaptionsInput li = true) :
    createTemplate none s ti genId now = (.error unauthErr, s)
    ∧ listTemplates none s = (.error unauthErr, s)
    ∧ createMemeIdea none s ii genId now = (.error unauthErr, s)
    ∧ listMemeIdeas none s = (.error unauthErr, s)
    ∧ createMemeCaption none s ci genId now = (.error unauthErr, s)
    ∧ updateMemeCaption none s ui = (.error unauthErr, s)
    ∧ deleteMemeCaption none s di = (.error unauthErr, s)
    ∧ listMemeCaptions none s li = (.error unauthErr, s) := by
  refine ⟨?_, ?_, ?_, ?_, ?_, ?_, ?_, ?_⟩ <;>
    simp [createTemplate, listTemplates, createMemeIdea, listMemeIdeas,
      createMemeCaption, updateMemeCaption, deleteMemeCaption, listMemeCaptions,
      requireUser, h1, h2, h3, h4, h5]

/-- C9 witness: a valid createTemplate request with no identity yields the
UNAUTHORIZED error and leaves the empty store unchanged. -/
theorem C9_witness :
    createTemplate none emptyStore ⟨"Drake", none, none, none⟩ "t1" 0
      = (.error unauthErr, emptyStore) :=
  (C9_unauthenticated_rejected emptyStore ⟨"Drake", none, none, none⟩
    ⟨none, none, none⟩ ⟨"i1", none, none, none, none, none, none⟩
    ⟨"c1", "i1", some "A", none, none, none, none, none⟩ ⟨"c1", "i1"⟩
    ⟨"i1", false, false⟩ "t1" 0 (by decide) (by decide) (by decide) (by decide)
    (by decide)).1

end MemeCreator
